import Mathlib

/-!
Shallow embedding of the TRI backend (`main.py`, `schemas.py`).

The MongoDB store is modelled as an explicit state value of type `DB`:
the singleton `invoicesequence` document is an `Option Nat` (`none` when the
record does not exist yet, `some n` when it holds `last_number = n`), and the
`order` collection is a list of `OrderDoc`.  Each HTTP handler becomes a pure
function from the incoming payload and the current `DB` to the next `DB`
together with its response; a raised `HTTPException` becomes an
`Except ApiError` response with the state it leaves behind.  Wall-clock
inputs (`datetime.now()`) are passed as explicit parameters.  Python floats
are modelled as rationals (`ℚ`).
-/

namespace TRI

/-- Cart line item as declared by `main.py`'s `CartItem` pydantic model
(fields `product_id`, `title`, `quantity : int`, `price : float`; the model
declares no numeric bounds). -/
structure CartItem where
  product_id : String
  title : String
  quantity : Int
  price : ℚ

/-- Request body of `POST /api/orders` (`main.py` `OrderIn`). -/
structure OrderIn where
  user_email : String
  items : List CartItem

/-- Request body of `POST /api/payments/verify` (`main.py` `VerifyPaymentIn`). -/
structure VerifyPaymentIn where
  order_id : String
  payment_id : Option String := none
  signature : Option String := none

/-- A stored `order` collection document, with the fields written by
`create_order` and `verify_payment`.  `_id` is the Mongo ObjectId rendered as
a string; optional fields are absent (`none`) until first written. -/
structure OrderDoc where
  _id : String
  user_email : String
  items : List CartItem
  amount : ℚ
  status : String
  order_id : Option String
  payment_id : Option String
  invoice_number : Option String
  created_at : Nat
  updated_at : Nat

/-- The database state: the `invoicesequence` singleton document
(`none` = record absent, `some n` = `last_number` is `n`) and the `order`
collection. -/
structure DB where
  invoiceseq_last : Option Nat
  orders : List OrderDoc

/-- An `HTTPException` (status code and detail string). -/
structure ApiError where
  status_code : Nat
  detail : String
deriving DecidableEq

/-- Response of `POST /api/payments/verify` on success. -/
structure VerifyResp where
  status : String
  invoice_number : String
deriving DecidableEq

/-- Response of `POST /api/orders`. -/
structure CreateOrderResp where
  _id : String
  order_id : String
  amount : ℚ
  currency : String
  status : String

/-- Python `f"{n:0{width}d}"` for a natural number: zero-pad the decimal
representation to `width` characters, widening without truncation when the
representation is already longer. -/
def pythonPad (width : Nat) (n : Nat) : String :=
  let s := toString n
  String.mk (List.replicate (width - s.length) '0') ++ s

/-- Python `s[-n:]`: the last `n` characters of `s` (all of `s` when it is
shorter). -/
def strLast (n : Nat) (s : String) : String :=
  String.mk (s.data.drop (s.data.length - n))

/-- Python `a or b` on an optional string: `b` when `a` is `None` or the
empty (falsy) string. -/
def pyOrElse (a : Option String) (b : String) : String :=
  match a with
  | some s => if s = "" then b else s
  | none => b

/-- `main.py` `_generate_invoice_number` (lines 79-88): one atomic
`find_one_and_update` on the `invoicesequence` singleton with `$inc
last_number 1`, `upsert=True` and `return_document` AFTER.  When the record
is absent the upsert creates it with `last_number = 1`; otherwise
`last_number` becomes its old value plus 1; the returned document carries the
post-increment value, which is formatted as `TRI/{year}/{num:05d}`.  The
whole read-modify-write is a single step on the state. -/
def generateInvoiceNumber (year : Nat) (db : DB) : DB × String :=
  let num := db.invoiceseq_last.getD 0 + 1
  ({ db with invoiceseq_last := some num },
   "TRI/" ++ toString year ++ "/" ++ pythonPad 5 num)

/-- The numeric value handed out by the next allocation from state `db`
(the post-increment `last_number`). -/
def allocNum (db : DB) : Nat :=
  db.invoiceseq_last.getD 0 + 1

/-- The state effect of one allocation (the first component of
`generateInvoiceNumber`, which does not depend on the year). -/
def allocStep (db : DB) : DB :=
  { db with invoiceseq_last := some (allocNum db) }

/-- The stored counter value read back with default 0 (`last_number` of the
singleton, 0 when the record is absent). -/
def lastVal (db : DB) : Nat :=
  db.invoiceseq_last.getD 0

/-- `main.py` `_order_total` (lines 91-92): sum of `price * quantity` over
the items. -/
def _order_total (items : List CartItem) : ℚ :=
  (items.map (fun i => i.price * (i.quantity : ℚ))).sum

/-- Mongo `update_one`: apply `f` to the first element satisfying `p`,
leaving everything else unchanged. -/
def updateFirst (p : OrderDoc → Bool) (f : OrderDoc → OrderDoc) :
    List OrderDoc → List OrderDoc
  | [] => []
  | o :: rest => if p o then f o :: rest else o :: updateFirst p f rest

/-- `main.py` `create_order` (lines 95-121): compute the amount, insert the
document with status `"created"`, then set the simulated gateway order id
`order_{last 8 chars of the inserted id}` on it; respond with id, gateway
order id, amount, currency and status.  `now` is the wall clock and `newId`
the ObjectId produced by the insert. -/
def create_order (now : Nat) (newId : String) (payload : OrderIn) (db : DB) :
    DB × CreateOrderResp :=
  let amount := _order_total payload.items
  let doc : OrderDoc :=
    { _id := newId
      user_email := payload.user_email
      items := payload.items
      amount := amount
      status := "created"
      order_id := none
      payment_id := none
      invoice_number := none
      created_at := now
      updated_at := now }
  let gateway_order_id := "order_" ++ strLast 8 newId
  let db1 : DB := { db with orders := db.orders ++ [doc] }
  let db2 : DB :=
    { db1 with
      orders := updateFirst (fun o => o._id == newId)
        (fun o => { o with order_id := some gateway_order_id }) db1.orders }
  (db2,
   { _id := newId
     order_id := gateway_order_id
     amount := amount
     currency := "INR"
     status := "created" })

/-- `main.py` `verify_payment` (lines 124-145): look the order up by its
gateway `order_id`; absent → 404 `"Order not found"` with the state
untouched; present → allocate an invoice number, then set status `"paid"`,
the payment id (`payload.payment_id or "pay_" + last 6 chars of _id`), the
fresh invoice number and `updated_at` on the order, and respond
`{status: "paid", invoice_number}`. -/
def verify_payment (year now : Nat) (payload : VerifyPaymentIn) (db : DB) :
    DB × Except ApiError VerifyResp :=
  match db.orders.find? (fun o => o.order_id == some payload.order_id) with
  | none => (db, .error ⟨404, "Order not found"⟩)
  | some order =>
    let res := generateInvoiceNumber year db
    let db1 := res.1
    let invoice_number := res.2
    let db2 : DB :=
      { db1 with
        orders := updateFirst (fun o => o._id == order._id)
          (fun o =>
            { o with
              status := "paid"
              payment_id := some (pyOrElse payload.payment_id
                ("pay_" ++ strLast 6 order._id))
              invoice_number := some invoice_number
              updated_at := now }) db1.orders }
    (db2, .ok ⟨"paid", invoice_number⟩)

/-- `main.py` `list_orders` (lines 148-158): the orders whose `user_email`
matches, sorted by `created_at` descending, limited to 50. -/
def list_orders (email : String) (db : DB) : List OrderDoc :=
  ((db.orders.filter (fun o => o.user_email == email)).mergeSort
    (fun a b => decide (b.created_at ≤ a.created_at))).take 50

/-- Python `f"{x:.2f}"` modelled on the rational value: the decimal value
rounded to 2 fractional digits, sign first, fractional part zero-padded to
width 2. -/
def formatFixed2 (q : ℚ) : String :=
  let cents : Nat := (round (|q| * 100) : ℤ).toNat
  (if q < 0 then "-" else "")
    ++ toString (cents / 100) ++ "." ++ pythonPad 2 (cents % 100)

/-- One `<tr>` row of the invoice item table (`main.py` lines 171-174). -/
def itemRowHtml (i : CartItem) : String :=
  "<tr><td>" ++ i.title
    ++ "</td><td style=\x27text-align:center\x27>" ++ toString i.quantity
    ++ "</td><td style=\x27text-align:right\x27>₹" ++ formatFixed2 i.price
    ++ "</td><td style=\x27text-align:right\x27>₹"
    ++ formatFixed2 (i.price * (i.quantity : ℚ))
    ++ "</td></tr>"

/-- Literal HTML up to the invoice number in the `<title>` (`main.py` lines
175-179). -/
def htmlHead1 : String :=
  "\n    <html>\n      <head>\n        <meta charset=\x27utf-8\x27 />\n        <title>Invoice "

/-- Literal HTML between the `<title>` invoice number and the header `<div>`
invoice number (`main.py` lines 179-195). -/
def htmlHead2 : String :=
  "</title>\n        <style>\n          body \x7b font-family: -apple-system, Segoe UI, Roboto, sans-serif; padding: 24px; \x7d\n          .card \x7b max-width: 720px; margin: 0 auto; border: 1px solid #eee; border-radius: 10px; overflow: hidden; \x7d\n          .header \x7b background: #0ea5e9; color: white; padding: 16px 20px; \x7d\n          .section \x7b padding: 16px 20px; \x7d\n          table \x7b width: 100%; border-collapse: collapse; \x7d\n          th, td \x7b padding: 8px; border-bottom: 1px solid #f1f5f9; \x7d\n          th \x7b text-align: left; background:#f8fafc; \x7d\n          .right \x7b text-align:right; \x7d\n        </style>\n      </head>\n      <body>\n        <div class=\"card\">\n          <div class=\"header\">\n            <h2>TRI Invoice</h2>\n            <div>"

/-- Literal HTML between the header invoice number and the billed-to email
(`main.py` lines 195-198). -/
def htmlBilled1 : String :=
  "</div>\n          </div>\n          <div class=\"section\">\n            <div><strong>Billed To:</strong> "

/-- Literal HTML between the billed-to email and the date (`main.py` lines
198-199). -/
def htmlBilled2 : String :=
  "</div>\n            <div><strong>Date:</strong> "

/-- Literal HTML between the date and the item rows (`main.py` lines
199-207). -/
def htmlItems1 : String :=
  "</div>\n          </div>\n          <div class=\"section\">\n            <table>\n              <thead>\n                <tr><th>Description</th><th style=\x27text-align:center\x27>Qty</th><th class=\x27right\x27>Rate</th><th class=\x27right\x27>Amount</th></tr>\n              </thead>\n              <tbody>\n                "

/-- Literal HTML between the item rows and the total amount (`main.py` lines
207-208). -/
def htmlItems2 : String :=
  "\n                <tr><td colspan=\"3\" class=\x27right\x27><strong>Total</strong></td><td class=\x27right\x27><strong>₹"

/-- Literal HTML after the total amount (`main.py` lines 208-215). -/
def htmlTail : String :=
  "</strong></td></tr>\n              </tbody>\n            </table>\n          </div>\n        </div>\n      </body>\n    </html>\n    "

/-- The invoice HTML document built by `get_invoice` (`main.py` lines
170-215) for a found order: `inv` is `order.get("invoice_number",
"PENDING")`, and `dateStr` stands for `datetime.now().strftime("%Y-%m-%d")`. -/
def invoiceHtml (dateStr : String) (order : OrderDoc) : String :=
  let inv := order.invoice_number.getD "PENDING"
  let items_html := String.join (order.items.map itemRowHtml)
  htmlHead1 ++ inv ++ htmlHead2 ++ inv
    ++ htmlBilled1 ++ order.user_email
    ++ htmlBilled2 ++ dateStr
    ++ htmlItems1 ++ items_html
    ++ htmlItems2 ++ formatFixed2 order.amount
    ++ htmlTail

/-- `main.py` `get_invoice` (lines 161-216): look the order up by gateway
`order_id`; absent → 404, present → the rendered HTML document. -/
def get_invoice (dateStr : String) (order_id : String) (db : DB) :
    Except ApiError String :=
  match db.orders.find? (fun o => o.order_id == some order_id) with
  | none => .error ⟨404, "Order not found"⟩
  | some order => .ok (invoiceHtml dateStr order)

/-- Boundary-level cart item as received in the JSON body: each field is
present with its parsed type, or absent. -/
structure RawCartItem where
  product_id : Option String
  title : Option String
  quantity : Option Int
  price : Option ℚ

/-- Validation performed by `main.py`'s `CartItem` model (lines 63-67), the
model FastAPI applies to the `POST /api/orders` body: all four fields must be
present with the declared types; no numeric bound is declared. -/
def mainCartItemValidate (r : RawCartItem) : Option CartItem :=
  match r.product_id, r.title, r.quantity, r.price with
  | some p, some t, some q, some pr => some ⟨p, t, q, pr⟩
  | _, _, _, _ => none

/-- Validation declared by `schemas.py`'s `CartItem` model (lines 26-30):
presence and types as in `main.py`, plus `quantity ≥ 1` and `price ≥ 0`.
This model is not referenced by any route handler in `main.py`. -/
def schemasCartItemValidate (r : RawCartItem) : Option CartItem :=
  match mainCartItemValidate r with
  | some i => if 1 ≤ i.quantity ∧ 0 ≤ i.price then some i else none
  | none => none

/-- Concrete empty database used to instantiate the theorems. -/
def dbEmpty : DB := ⟨none, []⟩

/-- Concrete stored order with gateway id `order_1` and no invoice number. -/
def orderEx : OrderDoc :=
  { _id := "64f0c0ffee0123456789abcd"
    user_email := "a@example.com"
    items := [⟨"p1", "Widget", 2, 21 / 2⟩]
    amount := 21
    status := "created"
    order_id := some "order_1"
    payment_id := none
    invoice_number := none
    created_at := 5
    updated_at := 5 }

/-- Concrete database holding exactly `orderEx`. -/
def dbOne : DB := ⟨none, [orderEx]⟩

/-- Concrete verify-payment payload referencing `orderEx`. -/
def payloadEx : VerifyPaymentIn := ⟨"order_1", none, none⟩

/-! ### Helper lemmas -/

theorem lastVal_iterate (db : DB) (k : Nat) :
    lastVal (allocStep^[k] db) = lastVal db + k := by
  induction k with
  | zero => rfl
  | succ n ih =>
    rw [Function.iterate_succ_apply']
    have h : lastVal (allocStep (allocStep^[n] db))
        = lastVal (allocStep^[n] db) + 1 := rfl
    omega

theorem allocNum_iterate (db : DB) (k : Nat) :
    allocNum (allocStep^[k] db) = lastVal db + k + 1 := by
  have h : allocNum (allocStep^[k] db) = lastVal (allocStep^[k] db) + 1 := rfl
  rw [h, lastVal_iterate]

theorem updateFirst_exists (p : OrderDoc → Bool) (f : OrderDoc → OrderDoc)
    (l : List OrderDoc) (hex : ∃ x ∈ l, p x = true) :
    ∃ x, x ∈ l ∧ p x = true ∧ f x ∈ updateFirst p f l := by
  induction l with
  | nil => simp at hex
  | cons o rest ih =>
    by_cases ho : p o = true
    · exact ⟨o, List.mem_cons_self o rest, ho, by simp [updateFirst, ho]⟩
    · obtain ⟨x, hx, hpx⟩ := hex
      rcases List.mem_cons.mp hx with hxo | hxr
      · exact absurd (hxo ▸ hpx) ho
      · obtain ⟨x', hx', hpx', hfx'⟩ := ih ⟨x, hxr, hpx⟩
        refine ⟨x', List.mem_cons_of_mem _ hx', hpx', ?_⟩
        simp only [updateFirst, ho, if_false]
        exact List.mem_cons_of_mem _ hfx'

theorem verify_payment_notfound_eq (y now : Nat) (p : VerifyPaymentIn)
    (db : DB)
    (h : db.orders.find? (fun o => o.order_id == some p.order_id) = none) :
    verify_payment y now p db = (db, .error ⟨404, "Order not found"⟩) := by
  unfold verify_payment
  rw [h]

theorem verify_payment_found_eq (y now : Nat) (p : VerifyPaymentIn) (db : DB)
    (order : OrderDoc)
    (h : db.orders.find? (fun o => o.order_id == some p.order_id)
      = some order) :
    verify_payment y now p db =
      ({ invoiceseq_last := some (allocNum db)
         orders := updateFirst (fun o => o._id == order._id)
           (fun o =>
             { o with
               status := "paid"
               payment_id := some (pyOrElse p.payment_id
                 ("pay_" ++ strLast 6 order._id))
               invoice_number := some (generateInvoiceNumber y db).2
               updated_at := now }) db.orders },
       .ok ⟨"paid", (generateInvoiceNumber y db).2⟩) := by
  unfold verify_payment
  rw [h]
  rfl

theorem pythonPad_length (w n : Nat) :
    (pythonPad w n).length = max w (toString n).length := by
  simp only [pythonPad, String.length_append, String.length_mk,
    List.length_replicate]
  omega

theorem mergeSort_created_sorted (l : List OrderDoc) :
    (l.mergeSort (fun a b => decide (b.created_at ≤ a.created_at))).Pairwise
      (fun a b => b.created_at ≤ a.created_at) := by
  have h := @List.sorted_mergeSort OrderDoc
      (fun a b => decide (b.created_at ≤ a.created_at))
      (fun a b c hab hbc => by
        simp only [decide_eq_true_eq] at hab hbc ⊢
        omega)
      (fun a b => by
        simp only [Bool.or_eq_true, decide_eq_true_eq]
        omega) l
  exact h.imp (fun hab => by simpa using hab)

/-! ### Claim theorems -/

/-- C1: every allocation increments the singleton counter's `last_number` by
exactly 1 in a single atomic step (modelled as one indivisible state
transition) and returns the post-increment value; hence any two distinct
allocations in a run return distinct numbers and the sequence grows by
exactly 1 per allocation. -/
theorem allocation_atomic_increment :
    (∀ (y : Nat) (db : DB),
        (generateInvoiceNumber y db).1.invoiceseq_last = some (lastVal db + 1)
          ∧ (generateInvoiceNumber y db).2
              = "TRI/" ++ toString y ++ "/" ++ pythonPad 5 (lastVal db + 1))
    ∧ (∀ (db : DB) (k : Nat),
        allocNum (allocStep^[k + 1] db) = allocNum (allocStep^[k] db) + 1)
    ∧ (∀ (db : DB) (i j : Nat), i ≠ j →
        allocNum (allocStep^[i] db) ≠ allocNum (allocStep^[j] db)) := by
  refine ⟨fun y db => ⟨rfl, rfl⟩, fun db k => ?_, fun db i j hij => ?_⟩
  · rw [allocNum_iterate, allocNum_iterate]
    omega
  · rw [allocNum_iterate, allocNum_iterate]
    omega

/-- Witness for C1 at the empty database: the first and second allocations
return different numbers. -/
theorem allocation_atomic_increment_witness :
    allocNum (allocStep^[0] dbEmpty) ≠ allocNum (allocStep^[1] dbEmpty) :=
  allocation_atomic_increment.2.2 dbEmpty 0 1 (by decide)

/-- C2: the returned identifier is `TRI/{year}/{number:05d}` for the
post-increment counter value: zero-padded to 5 digits, widening without
truncation beyond 5 digits; in particular allocating at `last_number =
99999` yields numeric suffix `100000`. -/
theorem invoice_number_format :
    (∀ (y : Nat) (db : DB),
        (generateInvoiceNumber y db).2
          = "TRI/" ++ toString y ++ "/" ++ pythonPad 5 (allocNum db))
    ∧ (∀ n : Nat, (pythonPad 5 n).length = max 5 (toString n).length)
    ∧ (∀ n : Nat, 5 ≤ (toString n).length → pythonPad 5 n = toString n)
    ∧ (∀ (y : Nat) (db : DB), db.invoiceseq_last = some 99999 →
        (generateInvoiceNumber y db).2
          = "TRI/" ++ toString y ++ "/" ++ "100000") := by
  refine ⟨fun y db => rfl, fun n => pythonPad_length 5 n,
    fun n h => ?_, fun y db h => ?_⟩
  · simp only [pythonPad, Nat.sub_eq_zero_of_le h, List.replicate_zero]
    rfl
  · simp only [generateInvoiceNumber, h]
    rfl

/-- Witness for C2: allocating at `last_number = 99999` in the year 2026
produces the widened suffix `100000`. -/
theorem invoice_number_format_witness :
    (generateInvoiceNumber 2026 ⟨some 99999, []⟩).2
      = "TRI/" ++ toString 2026 ++ "/" ++ "100000" :=
  invoice_number_format.2.2.2 2026 ⟨some 99999, []⟩ rfl

/-- C3: when the counter record is absent, the first allocation creates it
(upsert) with `last_number = 1` and returns suffix `00001`; and the counter
is mutated only by the allocation: `create_order` leaves it untouched,
`verify_payment` leaves it untouched on the 404 path and changes it exactly
as one allocation step on the success path (the read handlers return no
state at all). -/
theorem counter_upsert_and_sole_mutator :
    (∀ (y : Nat) (db : DB), db.invoiceseq_last = none →
        (generateInvoiceNumber y db).1.invoiceseq_last = some 1
          ∧ (generateInvoiceNumber y db).2
              = "TRI/" ++ toString y ++ "/" ++ "00001")
    ∧ (∀ (now : Nat) (newId : String) (payload : OrderIn) (db : DB),
        (create_order now newId payload db).1.invoiceseq_last
          = db.invoiceseq_last)
    ∧ (∀ (y now : Nat) (p : VerifyPaymentIn) (db : DB),
        db.orders.find? (fun o => o.order_id == some p.order_id) = none →
          (verify_payment y now p db).1 = db)
    ∧ (∀ (y now : Nat) (p : VerifyPaymentIn) (db : DB) (order : OrderDoc),
        db.orders.find? (fun o => o.order_id == some p.order_id)
            = some order →
          (verify_payment y now p db).1.invoiceseq_last
            = (allocStep db).invoiceseq_last) := by
  refine ⟨fun y db h => ?_, fun now newId payload db => rfl,
    fun y now p db h => ?_, fun y now p db order h => ?_⟩
  · constructor
    · simp only [generateInvoiceNumber, h]
      rfl
    · simp only [generateInvoiceNumber, h]
      rfl
  · rw [verify_payment_notfound_eq y now p db h]
  · rw [verify_payment_found_eq y now p db order h]
    rfl

/-- Witness for C3 at the empty database: the upsert creates the counter at
1 and yields suffix `00001`. -/
theorem counter_upsert_and_sole_mutator_witness :
    (generateInvoiceNumber 2026 dbEmpty).1.invoiceseq_last = some 1
      ∧ (generateInvoiceNumber 2026 dbEmpty).2
          = "TRI/" ++ toString 2026 ++ "/" ++ "00001" :=
  counter_upsert_and_sole_mutator.1 2026 dbEmpty rfl

/-- C4: the counter is one global monotonic integer shared across all
years: the state effect of an allocation is identical for any two years
(the year is only a label in the returned string), and each allocation
strictly increases the stored value by 1 — it never resets. -/
theorem counter_global_across_years :
    (∀ (y₁ y₂ : Nat) (db : DB),
        (generateInvoiceNumber y₁ db).1 = (generateInvoiceNumber y₂ db).1)
    ∧ (∀ (y : Nat) (db : DB), (generateInvoiceNumber y db).1 = allocStep db)
    ∧ (∀ (y : Nat) (db : DB),
        lastVal (generateInvoiceNumber y db).1 = lastVal db + 1) :=
  ⟨fun _ _ _ => rfl, fun _ _ => rfl, fun _ _ => rfl⟩

/-- C5: verifying payment for an order id that matches no stored order
returns the 404 `"Order not found"` error and leaves the whole database —
in particular the invoice counter — unchanged. -/
theorem verify_payment_unknown_order :
    ∀ (y now : Nat) (p : VerifyPaymentIn) (db : DB),
      db.orders.find? (fun o => o.order_id == some p.order_id) = none →
        verify_payment y now p db
          = (db, Except.error ⟨404, "Order not found"⟩) :=
  fun y now p db h => verify_payment_notfound_eq y now p db h

/-- Witness for C5: verifying against the empty database returns 404 and
the unchanged state. -/
theorem verify_payment_unknown_order_witness :
    verify_payment 2026 7 payloadEx dbEmpty
      = (dbEmpty, Except.error ⟨404, "Order not found"⟩) :=
  verify_payment_unknown_order 2026 7 payloadEx dbEmpty rfl

/-- C6: every payment-verification call on an existing order — with no
hypothesis on its current status or invoice number, so also on an
already-verified order — allocates a fresh invoice number, responds
`{status: "paid", invoice_number}` with it, stores it on the order (setting
status `"paid"` and `updated_at`), and advances the counter so that the
next call hands out the successor number: there is no idempotence guard. -/
theorem verify_payment_reallocates :
    ∀ (y now : Nat) (p : VerifyPaymentIn) (db : DB) (order : OrderDoc),
      db.orders.find? (fun o => o.order_id == some p.order_id)
          = some order →
        (verify_payment y now p db).2
            = Except.ok ⟨"paid", (generateInvoiceNumber y db).2⟩
        ∧ (∃ o, o ∈ (verify_payment y now p db).1.orders
             ∧ o._id = order._id ∧ o.status = "paid"
             ∧ o.invoice_number = some (generateInvoiceNumber y db).2
             ∧ o.updated_at = now)
        ∧ allocNum (verify_payment y now p db).1 = allocNum db + 1 := by
  intro y now p db order h
  rw [verify_payment_found_eq y now p db order h]
  refine ⟨rfl, ?_, rfl⟩
  have hmem : order ∈ db.orders := List.mem_of_find?_eq_some h
  obtain ⟨x, hx, hpx, hfx⟩ := updateFirst_exists
    (fun o => o._id == order._id)
    (fun o =>
      { o with
        status := "paid"
        payment_id := some (pyOrElse p.payment_id
          ("pay_" ++ strLast 6 order._id))
        invoice_number := some (generateInvoiceNumber y db).2
        updated_at := now })
    db.orders ⟨order, hmem, by simp⟩
  exact ⟨_, hfx, by simpa using hpx, rfl, rfl, rfl⟩

/-- Witness for C6 on a one-order database: the call succeeds with the
fresh number, stores it, and advances the counter. -/
theorem verify_payment_reallocates_witness :
    (verify_payment 2026 9 payloadEx dbOne).2
        = Except.ok ⟨"paid", (generateInvoiceNumber 2026 dbOne).2⟩
      ∧ (∃ o, o ∈ (verify_payment 2026 9 payloadEx dbOne).1.orders
           ∧ o._id = orderEx._id ∧ o.status = "paid"
           ∧ o.invoice_number = some (generateInvoiceNumber 2026 dbOne).2
           ∧ o.updated_at = 9)
      ∧ allocNum (verify_payment 2026 9 payloadEx dbOne).1
          = allocNum dbOne + 1 :=
  verify_payment_reallocates 2026 9 payloadEx dbOne orderEx rfl

/-- C7: the amount returned by order creation is the sum of
`price * quantity` over the submitted items; on the items
`[{price: 10.5, qty: 2}, {price: 3, qty: 1}]` the total is `24`. -/
theorem order_amount_is_item_sum :
    (∀ (now : Nat) (newId : String) (payload : OrderIn) (db : DB),
        (create_order now newId payload db).2.amount
          = (payload.items.map (fun i => i.price * (i.quantity : ℚ))).sum)
    ∧ _order_total [⟨"p1", "A", 2, 21 / 2⟩, ⟨"p2", "B", 1, 3⟩] = 24 := by
  refine ⟨fun now newId payload db => rfl, ?_⟩
  simp only [_order_total, List.map, List.sum_cons, List.sum_nil]
  norm_num

/-- C8: listing orders for an email returns at most 50 documents, sorted by
`created_at` descending (newest first), all belonging to that email; an
email with no matching orders yields the empty list, not an error. -/
theorem list_orders_bounded_sorted :
    (∀ (email : String) (db : DB), (list_orders email db).length ≤ 50)
    ∧ (∀ (email : String) (db : DB),
        (list_orders email db).Pairwise
          (fun a b => b.created_at ≤ a.created_at))
    ∧ (∀ (email : String) (db : DB),
        db.orders.filter (fun o => o.user_email == email) = [] →
          list_orders email db = [])
    ∧ (∀ (email : String) (db : DB) (o : OrderDoc),
        o ∈ list_orders email db → o.user_email = email) := by
  refine ⟨fun email db => ?_, fun email db => ?_, fun email db h => ?_,
    fun email db o ho => ?_⟩
  · simp only [list_orders, List.length_take]
    omega
  · exact ((mergeSort_created_sorted _).sublist (List.take_sublist _ _))
  · simp [list_orders, h]
  · simp only [list_orders] at ho
    have h1 := List.take_subset _ _ ho
    have h2 := List.mem_mergeSort.mp h1
    have h3 := (List.mem_filter.mp h2).2
    simpa using h3

/-- Witness for C8: the empty database yields the empty list. -/
theorem list_orders_bounded_sorted_witness :
    list_orders "a@example.com" dbEmpty = [] :=
  list_orders_bounded_sorted.2.2.1 "a@example.com" dbEmpty rfl

/-- C9 counterexample: the model actually applied to the `POST /api/orders`
body (`main.py` `CartItem`) declares no numeric bounds, so it is false that
every item it accepts satisfies `quantity ≥ 1` and `price ≥ 0`: the item
`{product_id: "p", title: "t", quantity: 0, price: 3}` is accepted. -/
theorem boundary_validation_claim_false :
    ¬ (∀ (r : RawCartItem) (i : CartItem),
        mainCartItemValidate r = some i →
          1 ≤ i.quantity ∧ 0 ≤ i.price) := by
  intro hall
  have h0 := hall ⟨some "p", some "t", some 0, some 3⟩ ⟨"p", "t", 0, 3⟩ rfl
  exact absurd h0.1 (by decide)

/-- C9 amended: the boundary validation of `main.py`'s `CartItem` checks
field presence and types only; the constraints `quantity ≥ 1` and
`price ≥ 0` are declared only on `schemas.py`'s `CartItem`, which does
enforce them but is not applied to the request. -/
theorem boundary_validation_amended :
    (∀ r : RawCartItem,
        (mainCartItemValidate r).isSome
          ↔ (r.product_id.isSome ∧ r.title.isSome
              ∧ r.quantity.isSome ∧ r.price.isSome))
    ∧ (∀ (r : RawCartItem) (i : CartItem),
        schemasCartItemValidate r = some i →
          1 ≤ i.quantity ∧ 0 ≤ i.price) := by
  constructor
  · intro r
    obtain ⟨p, t, q, pr⟩ := r
    cases p <;> cases t <;> cases q <;> cases pr <;>
      simp [mainCartItemValidate]
  · intro r i h
    unfold schemasCartItemValidate at h
    cases hm : mainCartItemValidate r with
    | none => rw [hm] at h; simp at h
    | some i0 =>
      rw [hm] at h
      dsimp only at h
      by_cases hc : 1 ≤ i0.quantity ∧ 0 ≤ i0.price
      · rw [if_pos hc] at h
        injection h with h
        exact h ▸ hc
      · rw [if_neg hc] at h
        simp at h

/-- Witness for C9's amended theorem: the schema-level validator accepts
`{quantity: 2, price: 3}` and the bounds hold for it. -/
theorem boundary_validation_amended_witness :
    1 ≤ (⟨"p1", "W", 2, 3⟩ : CartItem).quantity
      ∧ 0 ≤ (⟨"p1", "W", 2, 3⟩ : CartItem).price :=
  boundary_validation_amended.2 ⟨some "p1", some "W", some 2, some 3⟩
    ⟨"p1", "W", 2, 3⟩
    (by simp [schemasCartItemValidate, mainCartItemValidate])

/-- C10: for an order that exists but has no `invoice_number` field,
`GET /api/invoice/{order_id}` does not fail: it returns the rendered HTML
document, and that document contains the placeholder `PENDING` where the
invoice number would appear. -/
theorem invoice_pending_placeholder :
    ∀ (dateStr order_id : String) (db : DB) (order : OrderDoc),
      db.orders.find? (fun o => o.order_id == some order_id) = some order →
        get_invoice dateStr order_id db
            = Except.ok (invoiceHtml dateStr order)
        ∧ (order.invoice_number = none →
            ∃ a b : String,
              invoiceHtml dateStr order = a ++ "PENDING" ++ b) := by
  intro dateStr order_id db order h
  constructor
  · unfold get_invoice
    rw [h]
  · intro hn
    refine ⟨htmlHead1,
      htmlHead2 ++ "PENDING" ++ htmlBilled1 ++ order.user_email
        ++ htmlBilled2 ++ dateStr ++ htmlItems1
        ++ String.join (order.items.map itemRowHtml)
        ++ htmlItems2 ++ formatFixed2 order.amount ++ htmlTail, ?_⟩
    simp [invoiceHtml, hn, String.append_assoc]

/-- Witness for C10 on a stored order with no invoice number: the rendered
document contains `PENDING`. -/
theorem invoice_pending_placeholder_witness :
    ∃ a b : String,
      invoiceHtml "2026-02-03" orderEx = a ++ "PENDING" ++ b :=
  (invoice_pending_placeholder "2026-02-03" "order_1" dbOne orderEx rfl).2 rfl

end TRI
